import Mathlib

/-!
Shallow embedding of the injected wallet connector
(src/packages/connectors/src/injected.ts).

Provider calls, persistent storage and the event bus are asynchronous
collaborators of the connector.  They are modelled by explicit oracle
records (the settled outcome of each request the operation performs) and by
explicit state passing (the storage key-value map).  Each operation also
returns the list of observable effects it performed: events emitted on the
event bus, provider listeners attached or removed, storage writes, and
add-chain requests issued to the provider.
-/

namespace Injected

/-- Structured provider error: a numeric code plus the optional nested code
at data.originalError.code used by MetaMask Mobile. -/
structure RpcErr where
  code : Int
  originalErrorCode : Option Int := none
  deriving DecidableEq

/-- Inner payload of a SwitchChainError. -/
inductive SwitchErrInner where
  | chainNotConfigured
  | rpc (e : RpcErr)
  deriving DecidableEq

/-- Errors surfaced by the connector operations.  userRejected models
UserRejectedRequestError, resourceUnavailable models
ResourceUnavailableRpcError wrapping the original provider error,
passthrough models a provider error rethrown unchanged, and switchChainErr
models SwitchChainError. -/
inductive ConnError where
  | providerNotFound
  | userRejected
  | resourceUnavailable (e : RpcErr)
  | passthrough (e : RpcErr)
  | switchChainErr (inner : SwitchErrInner)
  deriving DecidableEq

structure NativeCurrency where
  name : String
  symbol : String
  decimals : Nat
  deriving DecidableEq

structure BlockExplorer where
  name : String
  url : String
  deriving DecidableEq

/-- Registry chain descriptor.  rpcUrlsPublicHttp models
chain.rpcUrls.public?.http (none when the public entry is absent);
blockExplorersDefault and blockExplorersOther model the default entry and
the remaining entries (in key order) of chain.blockExplorers. -/
structure Chain where
  id : Nat
  name : String
  nativeCurrency : NativeCurrency
  rpcUrlsPublicHttp : Option (List String) := none
  blockExplorersDefault : Option BlockExplorer := none
  blockExplorersOther : List BlockExplorer := []
  deriving DecidableEq

/-- viem numberToHex: 0x-prefixed lowercase hexadecimal. -/
def numberToHex (n : Nat) : String :=
  "0x" ++ String.mk (Nat.toDigits 16 n)

/-- Parameters of a wallet_addEthereumChain request as built by switchChain. -/
structure AddChainRequest where
  chainId : String
  chainName : String
  nativeCurrency : NativeCurrency
  rpcUrls : List String
  blockExplorerUrls : List String
  deriving DecidableEq

/-- Oracle for the provider interactions of switchChain: switchOutcome is the
settled outcome of the wallet_switchEthereumChain request raced together
with the wait for a matching change event (Promise.all of the two);
addOutcome is the outcome of the wallet_addEthereumChain request;
requeriedChainId is the outcome of the eth_chainId re-query performed after
a successful add. -/
structure SwitchEnv where
  switchOutcome : Except RpcErr Unit := .ok ()
  addOutcome : Except RpcErr Unit := .ok ()
  requeriedChainId : Except RpcErr Nat := .ok 0

/-- switchChain from the source: look the chain up in the configured
registry, attempt the switch, and on the unrecognized-chain code 4902
(either the code itself or nested at data.originalError.code) fall back to
wallet_addEthereumChain followed by an eth_chainId re-query.  The second
component collects the add-chain requests issued. -/
def switchChain (chains : List Chain) (providerPresent : Bool) (env : SwitchEnv)
    (chainId : Nat) : Except ConnError Chain × List AddChainRequest :=
  if !providerPresent then (.error .providerNotFound, [])
  else
    match List.find? (fun x => x.id == chainId) chains with
    | none => (.error (.switchChainErr .chainNotConfigured), [])
    | some chain =>
      let id := numberToHex chainId
      match env.switchOutcome with
      | .ok _ => (.ok chain, [])
      | .error error =>
        if error.code == 4902 || error.originalErrorCode == some 4902 then
          let blockExplorerUrls : List String :=
            match chain.blockExplorersDefault with
            | some blockExplorer =>
                blockExplorer.url :: chain.blockExplorersOther.map (fun x => x.url)
            | none => []
          let req : AddChainRequest :=
            { chainId := id
              chainName := chain.name
              nativeCurrency := chain.nativeCurrency
              rpcUrls := [(chain.rpcUrlsPublicHttp.getD []).headD ""]
              blockExplorerUrls := blockExplorerUrls }
          match env.addOutcome with
          | .error _ => (.error .userRejected, [req])
          | .ok _ =>
            match env.requeriedChainId with
            | .error _ => (.error .userRejected, [req])
            | .ok currentChainId =>
              if currentChainId != chainId then (.error .userRejected, [req])
              else (.ok chain, [req])
        else if error.code == 4001 then (.error .userRejected, [])
        else (.error (.switchChainErr (.rpc error)), [])

/-- C1: when the requested chain is configured and the switch request fails
with code 4902 (own code or nested at data.originalError.code), switchChain
issues exactly one wallet_addEthereumChain request carrying the hex chain
id, the chain name, the native currency, a single RPC URL, and the
block-explorer URLs with the default explorer first and the remaining
explorers appended; it then returns the registry descriptor when the
re-queried chain id matches the request, and otherwise, or on any failure
during the add-chain step, fails with a user-rejection error. -/
theorem c1_switch_falls_back_to_add_chain
    (chains : List Chain) (env : SwitchEnv) (chainId : Nat) (chain : Chain)
    (e : RpcErr)
    (hfind : List.find? (fun x => x.id == chainId) chains = some chain)
    (hsw : env.switchOutcome = .error e)
    (hcode : e.code = 4902 ∨ e.originalErrorCode = some 4902) :
    (switchChain chains true env chainId).2 =
      [{ chainId := numberToHex chainId
         chainName := chain.name
         nativeCurrency := chain.nativeCurrency
         rpcUrls := [(chain.rpcUrlsPublicHttp.getD []).headD ""]
         blockExplorerUrls :=
           match chain.blockExplorersDefault with
           | some blockExplorer =>
               blockExplorer.url :: chain.blockExplorersOther.map (fun x => x.url)
           | none => [] }] ∧
    (∀ cur, env.addOutcome = .ok () → env.requeriedChainId = .ok cur →
      (switchChain chains true env chainId).1 =
        if cur = chainId then .ok chain else .error .userRejected) ∧
    (∀ e2, env.addOutcome = .error e2 →
      (switchChain chains true env chainId).1 = .error .userRejected) ∧
    (∀ e2, env.addOutcome = .ok () → env.requeriedChainId = .error e2 →
      (switchChain chains true env chainId).1 = .error .userRejected) := by
  have hc : (e.code == 4902 || e.originalErrorCode == some 4902) = true := by
    rcases hcode with h | h <;> simp [h]
  refine ⟨?_, ?_, ?_, ?_⟩
  · simp only [switchChain, hfind, hsw, hc]
    cases env.addOutcome with
    | error e2 => simp
    | ok u =>
      cases env.requeriedChainId with
      | error e2 => simp
      | ok cur =>
        by_cases hne : cur = chainId <;> simp [hne]
  · intro cur hadd hreq
    simp only [switchChain, hfind, hsw, hc, hadd, hreq]
    by_cases hne : cur = chainId <;> simp [hne]
  · intro e2 hadd
    simp only [switchChain, hfind, hsw, hc, hadd]
    simp
  · intro e2 hadd hreq
    simp only [switchChain, hfind, hsw, hc, hadd, hreq]
    simp

/-- Concrete chain used by several witnesses. -/
def wChain : Chain :=
  { id := 5
    name := "Testnet"
    nativeCurrency := { name := "Ether", symbol := "ETH", decimals := 18 }
    rpcUrlsPublicHttp := some ["https://rpc.example"]
    blockExplorersDefault := some { name := "Scan", url := "https://scan.example" }
    blockExplorersOther := [{ name := "Other", url := "https://other.example" }] }

/-- Concrete switch oracle: switch fails with code 4902, add succeeds, the
re-query reports a chain id that differs from the requested one. -/
def wSwitchEnv : SwitchEnv :=
  { switchOutcome := .error { code := 4902 }
    addOutcome := .ok ()
    requeriedChainId := .ok 1 }

theorem c1_switch_falls_back_to_add_chain_witness :
    (switchChain [wChain] true wSwitchEnv 5).2 =
      [{ chainId := "0x5"
         chainName := "Testnet"
         nativeCurrency := { name := "Ether", symbol := "ETH", decimals := 18 }
         rpcUrls := ["https://rpc.example"]
         blockExplorerUrls := ["https://scan.example", "https://other.example"] }] ∧
    (switchChain [wChain] true wSwitchEnv 5).1 = .error .userRejected := by
  have h := c1_switch_falls_back_to_add_chain [wChain] wSwitchEnv 5 wChain
    { code := 4902 } rfl rfl (Or.inl rfl)
  refine ⟨?_, ?_⟩
  · rw [h.1]; rfl
  · have h2 := h.2.1 1 rfl rfl
    simpa using h2

/-- Error used by the C8 counterexample: top-level user-rejection code 4001
together with the nested unrecognized-chain code 4902. -/
def c8Err : RpcErr := { code := 4001, originalErrorCode := some 4902 }

/-- Switch oracle for the C8 counterexample: the switch request fails with
c8Err, the add-chain request succeeds, and the re-query matches. -/
def c8Env : SwitchEnv :=
  { switchOutcome := .error c8Err
    addOutcome := .ok ()
    requeriedChainId := .ok 5 }

/-- C8 counterexample: a top-level switch failure whose code is the
user-rejection code 4001 but which also carries the nested code 4902 takes
the add-chain branch and, with a successful add and a matching re-query,
switchChain returns the chain descriptor instead of throwing a
user-rejection error, so the claim as stated is false. -/
theorem c8_user_rejection_clause_false :
    c8Err.code = 4001 ∧ c8Env.switchOutcome = .error c8Err ∧
    (switchChain [wChain] true c8Env 5).1 = .ok wChain := by
  refine ⟨rfl, rfl, ?_⟩
  simp [switchChain, c8Env, c8Err, wChain]

/-- C8 (amended): switchChain fails with a switch-chain error wrapping a
chain-not-configured condition whenever the requested id is absent from the
registry; when the top-level switch request fails with the user-rejection
code and does not carry the unrecognized-chain code nested at
data.originalError.code, it throws a user-rejection error; and any other
top-level failure not carrying the unrecognized-chain code (own or nested)
is wrapped in a generic switch-chain error. -/
theorem c8_switch_chain_error_mapping
    (chains : List Chain) (env : SwitchEnv) (chainId : Nat) :
    (List.find? (fun x => x.id == chainId) chains = none →
      switchChain chains true env chainId =
        (.error (.switchChainErr .chainNotConfigured), [])) ∧
    (∀ chain e, List.find? (fun x => x.id == chainId) chains = some chain →
      env.switchOutcome = .error e → e.originalErrorCode ≠ some 4902 →
      ((e.code = 4001 →
        (switchChain chains true env chainId).1 = .error .userRejected) ∧
       (e.code ≠ 4001 → e.code ≠ 4902 →
        (switchChain chains true env chainId).1 =
          .error (.switchChainErr (.rpc e))))) := by
  refine ⟨?_, ?_⟩
  · intro hnone
    simp [switchChain, hnone]
  · intro chain e hfind hsw hnest
    have hnest2 : (e.originalErrorCode == some 4902) = false := by
      simp [hnest]
    refine ⟨?_, ?_⟩
    · intro hcode
      have hc : (e.code == 4902 || e.originalErrorCode == some 4902) = false := by
        simp [hcode, hnest2]
      simp [switchChain, hfind, hsw, hc, hcode, hnest]
    · intro h1 h2
      have hc : (e.code == 4902 || e.originalErrorCode == some 4902) = false := by
        simp [h2, hnest2]
      have h1b : (e.code == 4001) = false := by simp [h1]
      simp [switchChain, hfind, hsw, hc, h1b]

theorem c8_switch_chain_error_mapping_witness :
    switchChain [wChain] true c8Env 7 =
      (.error (.switchChainErr .chainNotConfigured), []) ∧
    (switchChain [wChain] true { switchOutcome := .error { code := 4001 } } 5).1 =
      .error .userRejected ∧
    (switchChain [wChain] true { switchOutcome := .error { code := -32603 } } 5).1 =
      .error (.switchChainErr (.rpc { code := -32603 })) := by
  refine ⟨?_, ?_, ?_⟩
  · exact (c8_switch_chain_error_mapping [wChain] c8Env 7).1 (by rfl)
  · exact ((c8_switch_chain_error_mapping [wChain]
      { switchOutcome := .error { code := 4001 } } 5).2 wChain { code := 4001 }
      rfl rfl (by simp)).1 rfl
  · exact ((c8_switch_chain_error_mapping [wChain]
      { switchOutcome := .error { code := -32603 } } 5).2 wChain { code := -32603 }
      rfl rfl (by simp)).2 (by simp) (by simp)

/-- Capability and impersonation flags of an injected provider, together
with the presence of the MetaMask-internal _events and _state fields (a
true value means the corresponding field is present on the object). -/
structure WindowProviderFlags where
  isApexWallet : Bool := false
  isAvalanche : Bool := false
  isBackpack : Bool := false
  isBifrost : Bool := false
  isBitKeep : Bool := false
  isBitski : Bool := false
  isBlockWallet : Bool := false
  isBraveWallet : Bool := false
  isCoinbaseWallet : Bool := false
  isDawn : Bool := false
  isEnkrypt : Bool := false
  isExodus : Bool := false
  isFrame : Bool := false
  isFrontier : Bool := false
  isGamestop : Bool := false
  isHyperPay : Bool := false
  isImToken : Bool := false
  isKuCoinWallet : Bool := false
  isMathWallet : Bool := false
  isMetaMask : Bool := false
  isOkxWallet : Bool := false
  isOKExWallet : Bool := false
  isOneInchAndroidWallet : Bool := false
  isOneInchIOSWallet : Bool := false
  isOpera : Bool := false
  isPhantom : Bool := false
  isPortal : Bool := false
  isRabby : Bool := false
  isRainbow : Bool := false
  isStatus : Bool := false
  isTally : Bool := false
  isTokenPocket : Bool := false
  isTokenary : Bool := false
  isTrust : Bool := false
  isTrustWallet : Bool := false
  isXDEFI : Bool := false
  isZerion : Bool := false
  _events : Bool := false
  _state : Bool := false
  deriving DecidableEq

/-- Dynamic flag lookup, provider bracket flag: an unknown key reads as an
absent property and is therefore falsy. -/
def flagByName (p : WindowProviderFlags) (k : String) : Bool :=
  match k with
  | "isApexWallet" => p.isApexWallet
  | "isAvalanche" => p.isAvalanche
  | "isBackpack" => p.isBackpack
  | "isBifrost" => p.isBifrost
  | "isBitKeep" => p.isBitKeep
  | "isBitski" => p.isBitski
  | "isBlockWallet" => p.isBlockWallet
  | "isBraveWallet" => p.isBraveWallet
  | "isCoinbaseWallet" => p.isCoinbaseWallet
  | "isDawn" => p.isDawn
  | "isEnkrypt" => p.isEnkrypt
  | "isExodus" => p.isExodus
  | "isFrame" => p.isFrame
  | "isFrontier" => p.isFrontier
  | "isGamestop" => p.isGamestop
  | "isHyperPay" => p.isHyperPay
  | "isImToken" => p.isImToken
  | "isKuCoinWallet" => p.isKuCoinWallet
  | "isMathWallet" => p.isMathWallet
  | "isMetaMask" => p.isMetaMask
  | "isOkxWallet" => p.isOkxWallet
  | "isOKExWallet" => p.isOKExWallet
  | "isOneInchAndroidWallet" => p.isOneInchAndroidWallet
  | "isOneInchIOSWallet" => p.isOneInchIOSWallet
  | "isOpera" => p.isOpera
  | "isPhantom" => p.isPhantom
  | "isPortal" => p.isPortal
  | "isRabby" => p.isRabby
  | "isRainbow" => p.isRainbow
  | "isStatus" => p.isStatus
  | "isTally" => p.isTally
  | "isTokenPocket" => p.isTokenPocket
  | "isTokenary" => p.isTokenary
  | "isTrust" => p.isTrust
  | "isTrustWallet" => p.isTrustWallet
  | "isXDEFI" => p.isXDEFI
  | "isZerion" => p.isZerion
  | _ => false

/-- The window.ethereum object: its own flags plus the optional providers
sub-provider list. -/
structure WindowEthereum where
  self : WindowProviderFlags
  providers : Option (List WindowProviderFlags) := none

/-- The ambient window environment read by the locator. -/
structure EnvWindow where
  coinbaseWalletExtension : Option WindowProviderFlags := none
  ethereum : Option WindowEthereum := none
  phantomEthereum : Option WindowProviderFlags := none

/-- Condition argument of findProvider: a capability-flag key or a custom
boolean function. -/
inductive ProviderCondition where
  | key (k : String)
  | pred (f : WindowProviderFlags → Bool)

def isProviderCond (condition : ProviderCondition) (p : WindowProviderFlags) :
    Bool :=
  match condition with
  | .key k => flagByName p k
  | .pred f => f p

/-- findProvider from the source: scan window.ethereum.providers when that
list is present (a present empty list is scanned and yields nothing,
without falling back), else test window.ethereum itself. -/
def findProvider (window : Option EnvWindow) (condition : ProviderCondition) :
    Option WindowProviderFlags :=
  match window with
  | none => none
  | some w =>
    match w.ethereum with
    | none => none
    | some eth =>
      match eth.providers with
      | some ps => List.find? (fun provider => isProviderCond condition provider) ps
      | none => if isProviderCond condition eth.self then some eth.self else none

/-- Block list of impersonation flags checked by the metaMask descriptor,
in source order. -/
def metaMaskFlagBlockList : List (WindowProviderFlags → Bool) :=
  [fun p => p.isApexWallet, fun p => p.isAvalanche, fun p => p.isBitKeep,
   fun p => p.isBlockWallet, fun p => p.isKuCoinWallet, fun p => p.isMathWallet,
   fun p => p.isOkxWallet, fun p => p.isOKExWallet, fun p => p.isOneInchIOSWallet,
   fun p => p.isOneInchAndroidWallet, fun p => p.isOpera, fun p => p.isPortal,
   fun p => p.isRabby, fun p => p.isTokenPocket, fun p => p.isTokenary,
   fun p => p.isZerion]

/-- Predicate passed to findProvider by the metaMask descriptor. -/
def isMetaMaskProvider (windowProvider : WindowProviderFlags) : Bool :=
  if !windowProvider.isMetaMask then false
  else if windowProvider.isBraveWallet && !windowProvider._events &&
      !windowProvider._state then false
  else if metaMaskFlagBlockList.any (fun flag => flag windowProvider) then false
  else true

/-- The provider field of a target descriptor: a capability-flag key or a
resolver function over the window. -/
inductive TargetProvider where
  | key (k : String)
  | resolve (f : Option EnvWindow → Option WindowProviderFlags)

/-- A target descriptor with its identifier; features lists the optional
capabilities (wallet_requestPermissions). -/
structure Target where
  id : String
  name : String
  provider : TargetProvider
  features : List String := []

/-- Well-known descriptor table targetMap, keyed by canonical identifiers;
yields name, provider resolution and features. -/
def targetMapLookup (t : String) :
    Option (String × TargetProvider × List String) :=
  match t with
  | "coinbaseWallet" =>
    some ("Coinbase Wallet",
      .resolve (fun window =>
        match window.bind (fun w => w.coinbaseWalletExtension) with
        | some p => some p
        | none => findProvider window (.key "isCoinbaseWallet")),
      [])
  | "metaMask" =>
    some ("MetaMask",
      .resolve (fun window => findProvider window (.pred isMetaMaskProvider)),
      ["wallet_requestPermissions"])
  | "phantom" =>
    some ("Phantom",
      .resolve (fun window =>
        match window.bind (fun w => w.phantomEthereum) with
        | some p => some p
        | none => findProvider window (.key "isPhantom")),
      [])
  | _ => none

/-- Capitalization used when synthesizing a descriptor from an identifier. -/
def capitalize (s : String) : String :=
  match s.data with
  | [] => ""
  | c :: cs => String.mk (c.toUpper :: cs)

/-- The target constructor option: absent, a string identifier, or a
resolver function which may yield no target. -/
inductive TargetParam where
  | auto
  | id (s : String)
  | resolver (f : Unit → Option Target)

/-- Descriptor used when no target is configured: the single ambient
window.ethereum slot. -/
def defaultInjectedTarget : Target :=
  { id := "injected"
    name := "Injected"
    provider := .resolve (fun window =>
      window.bind (fun w => w.ethereum.map (fun eth => eth.self))) }

/-- getWindowProvider from the source: a resolver function is tried first,
then the well-known table, else a descriptor is synthesized whose provider
is the flag key built from the capitalized identifier. -/
def getWindowProvider (param : TargetParam) : Target :=
  match param with
  | .resolver f =>
    match f () with
    | some t => t
    | none => defaultInjectedTarget
  | .id s =>
    match targetMapLookup s with
    | some (name, provider, features) =>
      { id := s, name := name, provider := provider, features := features }
    | none =>
      { id := s, name := capitalize s, provider := .key ("is" ++ capitalize s) }
  | .auto => defaultInjectedTarget

/-- getProvider from the source.  When the descriptor carries a flag-key
provider (the synthesized case), the source calls findProvider with the
constant-true predicate instead of the key. -/
def getProvider (window : Option EnvWindow) (param : TargetParam) :
    Option WindowProviderFlags :=
  match window with
  | none => none
  | some w =>
    match (getWindowProvider param).provider with
    | .resolve f => f (some w)
    | .key _ => findProvider (some w) (.pred (fun _ => true))

/-- Modelled from the spec: the default discovery of section 4.1, which
tests a flag-key descriptor (the synthesized is-capitalized-identifier
case) with that capability-flag predicate.  Kept beside getProvider for
comparison. -/
def getProviderSpecModel (window : Option EnvWindow) (param : TargetParam) :
    Option WindowProviderFlags :=
  match window with
  | none => none
  | some w =>
    match (getWindowProvider param).provider with
    | .resolve f => f (some w)
    | .key k => findProvider (some w) (.key k)

/-- Provider accepted by the claim: isMetaMask and nothing else. -/
def c3GoodProvider : WindowProviderFlags := { isMetaMask := true }

/-- The same provider with the impersonation flag isOkxWallet also set. -/
def c3BadProvider : WindowProviderFlags := { isMetaMask := true, isOkxWallet := true }

def c3GoodWindow : EnvWindow :=
  { ethereum := some { self := c3GoodProvider, providers := some [c3GoodProvider] } }

def c3BadWindow : EnvWindow :=
  { ethereum := some { self := c3BadProvider, providers := some [c3BadProvider] } }

/-- C3: a provider is accepted by the metaMask descriptor predicate iff it
declares isMetaMask, declares none of the sixteen impersonation flags of
the block list, and, when it declares isBraveWallet, carries the
MetaMask-internal _events or _state field; in particular the descriptor
selects a provider with isMetaMask and no impersonation flags from the
provider list, and rejects the same provider once isOkxWallet is also
set. -/
theorem c3_metamask_descriptor_predicate (p : WindowProviderFlags) :
    (isMetaMaskProvider p = true ↔
      (p.isMetaMask = true ∧
       p.isApexWallet = false ∧ p.isAvalanche = false ∧ p.isBitKeep = false ∧
       p.isBlockWallet = false ∧ p.isKuCoinWallet = false ∧
       p.isMathWallet = false ∧ p.isOkxWallet = false ∧ p.isOKExWallet = false ∧
       p.isOneInchIOSWallet = false ∧ p.isOneInchAndroidWallet = false ∧
       p.isOpera = false ∧ p.isPortal = false ∧ p.isRabby = false ∧
       p.isTokenPocket = false ∧ p.isTokenary = false ∧ p.isZerion = false ∧
       (p.isBraveWallet = true → (p._events = true ∨ p._state = true)))) ∧
    getProvider (some c3GoodWindow) (.id "metaMask") = some c3GoodProvider ∧
    getProvider (some c3BadWindow) (.id "metaMask") = none := by
  refine ⟨?_, ?_, ?_⟩
  · simp only [isMetaMaskProvider, metaMaskFlagBlockList, List.any_cons,
      List.any_nil]
    cases hm : p.isMetaMask <;>
      cases hb : p.isBraveWallet <;>
        cases he : p._events <;>
          cases hs : p._state <;>
            simp_all
  · rfl
  · rfl

theorem c3_metamask_descriptor_predicate_witness :
    isMetaMaskProvider c3GoodProvider = true ∧
    isMetaMaskProvider c3BadProvider = false := by
  constructor
  · exact (c3_metamask_descriptor_predicate c3GoodProvider).1.mpr
      ⟨rfl, rfl, rfl, rfl, rfl, rfl, rfl, rfl, rfl, rfl, rfl, rfl, rfl, rfl,
       rfl, rfl, rfl, fun h => by exact absurd h (by decide)⟩
  · have h := (c3_metamask_descriptor_predicate c3BadProvider).1
    by_contra hc
    have hb : isMetaMaskProvider c3BadProvider = true := by
      revert hc
      cases isMetaMaskProvider c3BadProvider <;> simp
    exact absurd (h.mp hb).2.2.2.2.2.2.2.1 (by decide)

/-- Sub-provider present at the failing input of C4: it declares isMetaMask
but not the synthesized isRainbow flag. -/
def c4Provider : WindowProviderFlags := { isMetaMask := true }

def c4Window : EnvWindow :=
  { ethereum := some { self := c4Provider, providers := some [c4Provider] } }

/-- C4 evaluated at the failing input: for the unrecognized identifier
rainbow the synthesized descriptor carries the flag key isRainbow, yet
getProvider tests the sub-provider list with the constant-true predicate,
returning the first sub-provider even though it does not declare isRainbow;
the discovery described by the spec returns nothing there. -/
theorem c4_synthesized_flag_is_ignored :
    (getWindowProvider (.id "rainbow")).provider = .key "isRainbow" ∧
    c4Provider.isRainbow = false ∧
    getProvider (some c4Window) (.id "rainbow") = some c4Provider ∧
    getProviderSpecModel (some c4Window) (.id "rainbow") = none := by
  exact ⟨rfl, rfl, rfl, rfl⟩

/-- Persistent key-value storage content; the backend itself may be absent
entirely, which every storage access treats as a no-op that reads as
absent. -/
abbrev Storage := List (String × Bool)

def storageGetItem (storage : Option Storage) (k : String) : Bool :=
  match storage with
  | none => false
  | some kvs =>
    match kvs.lookup k with
    | some v => v
    | none => false

def storageSetItem (storage : Option Storage) (k : String) : Option Storage :=
  storage.map (fun kvs => (k, true) :: kvs)

def storageRemoveItem (storage : Option Storage) (k : String) : Option Storage :=
  storage.map (fun kvs => kvs.filter (fun kv => kv.1 != k))

inductive StorageOp where
  | set (key : String)
  | remove (key : String)
  deriving DecidableEq

inductive ListenerOp where
  | on (event : String)
  | removeListener (event : String)
  deriving DecidableEq

inductive EmitOp where
  | connect (accounts : List String) (chainId : Nat)
  | change (accounts : Option (List String)) (chainId : Option Nat)
  | disconnect
  deriving DecidableEq

/-- Observable effects of one operation: events emitted on the application
event bus, provider listeners attached or removed, storage writes, and
add-chain requests issued. -/
structure Effects where
  emits : List EmitOp := []
  listeners : List ListenerOp := []
  storageOps : List StorageOp := []
  addChainReqs : List AddChainRequest := []
  deriving DecidableEq

def noEffects : Effects := {}

/-- Constructor-time configuration together with the identity derived from
the active target descriptor: id is the descriptor id and canSelectAccount
is whether the descriptor features contain wallet_requestPermissions. -/
structure ConnectorCfg where
  id : String := "injected"
  shimDisconnect : Bool := true
  unstable_shimAsyncInject : Option (Bool ⊕ Nat) := none
  canSelectAccount : Bool := false

/-- Storage key of the disconnect shim. -/
def connectedKey (cfg : ConnectorCfg) : String := cfg.id ++ ".connected"

/-- Enabling condition of the async-injection detector: the option is
neither undefined nor false (any numeric value, including zero, enables
it). -/
def asyncInjectEnabled (cfg : ConnectorCfg) : Bool :=
  match cfg.unstable_shimAsyncInject with
  | none => false
  | some (Sum.inl b) => b
  | some (Sum.inr _) => true

/-- Oracle for the provider interactions of the connection state machine:
providerPresent is whether getProvider resolves a handle; ethAccounts,
permissions (the extracted account list of the first permission caveat,
which may be missing), requestAccounts and chainIdRes are the settled
outcomes of the corresponding requests; switchEnv drives a nested
switchChain call; asyncRecheckFindsProvider is the outcome of the provider
re-check run by the async-injection race. -/
structure ConnEnv where
  providerPresent : Bool := true
  ethAccounts : Except RpcErr (List String) := .ok []
  permissions : Except RpcErr (Option (List String)) := .ok none
  requestAccounts : Except RpcErr (List String) := .ok []
  chainIdRes : Except RpcErr Nat := .ok 1
  switchEnv : SwitchEnv := {}
  asyncRecheckFindsProvider : Bool := false

/-- The catch-all error mapping at the end of connect: the user-rejection
code maps to a user-rejection error, the resource-unavailable code wraps
the error as resource-unavailable, anything else is rethrown unchanged. -/
def mapRpc (e : RpcErr) : ConnError :=
  if e.code == 4001 then .userRejected
  else if e.code == -32002 then .resourceUnavailable e
  else .passthrough e

/-- Optional account re-selection step of connect: active when the target
supports wallet_requestPermissions and the shim indicates disconnected.
Existing accounts are read with the failure swallowed to null; when some
exist, the permission request runs, whose inner catch maps the
user-rejection code to a user-rejection error, rethrows the
resource-unavailable code (the final catch of connect then wraps it), and
swallows every other failure, keeping the previously read accounts. -/
def selectAccountsStep (cfg : ConnectorCfg) (env : ConnEnv)
    (storage : Option Storage) (getAddr : String → String) :
    Except ConnError (Option (List String)) :=
  let isDisconnected :=
    cfg.shimDisconnect && !storageGetItem storage (connectedKey cfg)
  if cfg.canSelectAccount && isDisconnected then
    match env.ethAccounts with
    | .error _ => .ok none
    | .ok raw =>
      let accounts := raw.map getAddr
      if accounts.isEmpty then .ok (some accounts)
      else
        match env.permissions with
        | .ok value => .ok (value.map (fun l => l.map getAddr))
        | .error e =>
          if e.code == 4001 then .error .userRejected
          else if e.code == -32002 then .error (.resourceUnavailable e)
          else .ok (some accounts)
  else .ok none

/-- Account-obtaining phase of connect: the optional re-selection step
followed, when it yielded no accounts, by eth_requestAccounts with the
final error mapping applied. -/
def connectAccountsPhase (cfg : ConnectorCfg) (env : ConnEnv)
    (storage : Option Storage) (getAddr : String → String) :
    Except ConnError (List String) :=
  match selectAccountsStep cfg env storage getAddr with
  | .error c => .error c
  | .ok acctsOpt =>
    if (acctsOpt.getD []).isEmpty then
      match env.requestAccounts with
      | .error e => .error (mapRpc e)
      | .ok raw => .ok (raw.map getAddr)
    else .ok (acctsOpt.getD [])

structure ConnResult where
  accounts : List String
  chainId : Nat
  deriving DecidableEq

/-- connect from the source: obtain accounts, rewire the provider
listeners, optionally run the chain-switch protocol (swallowing its
failure), persist the shim and return accounts with the resulting chain
id.  Returns the result, the updated storage and the effects performed. -/
def connect (cfg : ConnectorCfg) (chains : List Chain)
    (getAddr : String → String) (env : ConnEnv) (storage : Option Storage)
    (chainId : Option Nat) :
    Except ConnError ConnResult × Option Storage × Effects :=
  if !env.providerPresent then (.error .providerNotFound, storage, noEffects)
  else
    match connectAccountsPhase cfg env storage getAddr with
    | .error c => (.error c, storage, noEffects)
    | .ok accounts =>
      let listenerOps : List ListenerOp :=
        [.removeListener "connect", .on "accountsChanged", .on "chainChanged",
         .on "disconnect"]
      match env.chainIdRes with
      | .error e => (.error (mapRpc e), storage, { listeners := listenerOps })
      | .ok currentChainId =>
        let switched :=
          match chainId with
          | some cid =>
            if cid != 0 && currentChainId != cid then
              match switchChain chains env.providerPresent env.switchEnv cid with
              | (.ok chain, reqs) => (chain.id, reqs)
              | (.error _, reqs) => (currentChainId, reqs)
            else (currentChainId, [])
          | none => (currentChainId, [])
        let storage2 :=
          if cfg.shimDisconnect then storageSetItem storage (connectedKey cfg)
          else storage
        let setOps : List StorageOp :=
          if cfg.shimDisconnect && storage.isSome then [.set (connectedKey cfg)]
          else []
        (.ok { accounts := accounts, chainId := switched.1 }, storage2,
         { listeners := listenerOps, storageOps := setOps,
           addChainReqs := switched.2 })

/-- disconnect from the source: rewire the provider listeners back to the
armed connect listener and clear the shim entry. -/
def disconnect (cfg : ConnectorCfg) (providerPresent : Bool)
    (storage : Option Storage) :
    Except ConnError Unit × Option Storage × Effects :=
  if !providerPresent then (.error .providerNotFound, storage, noEffects)
  else
    let storage2 :=
      if cfg.shimDisconnect then storageRemoveItem storage (connectedKey cfg)
      else storage
    let ops : List StorageOp :=
      if cfg.shimDisconnect && storage.isSome then [.remove (connectedKey cfg)]
      else []
    (.ok (), storage2,
     { listeners := [.removeListener "accountsChanged",
         .removeListener "chainChanged", .removeListener "disconnect",
         .on "connect"]
       storageOps := ops })

/-- isAuthorized from the source: total, since every internal failure is
caught and degrades to false.  When no provider resolves and the
async-injection detector is enabled, the race re-checks for a provider and
its positive outcome is returned directly. -/
def isAuthorized (cfg : ConnectorCfg) (env : ConnEnv)
    (storage : Option Storage) (getAddr : String → String) : Bool :=
  let isDisconnected :=
    cfg.shimDisconnect && !storageGetItem storage (connectedKey cfg)
  if isDisconnected then false
  else if env.providerPresent then
    match env.ethAccounts with
    | .error _ => false
    | .ok raw => !(raw.map getAddr).isEmpty
  else if asyncInjectEnabled cfg then env.asyncRecheckFindsProvider
  else false

/-- onConnect handler from the source; chainId is the normalized id carried
by the provider connect event. -/
def onConnect (cfg : ConnectorCfg) (env : ConnEnv) (storage : Option Storage)
    (getAddr : String → String) (chainId : Nat) :
    Except ConnError Unit × Option Storage × Effects :=
  if !env.providerPresent then (.error .providerNotFound, storage, noEffects)
  else
    match env.ethAccounts with
    | .error e => (.error (.passthrough e), storage, noEffects)
    | .ok raw =>
      let accounts := raw.map getAddr
      if accounts.isEmpty then (.ok (), storage, noEffects)
      else
        let storage2 :=
          if cfg.shimDisconnect then storageSetItem storage (connectedKey cfg)
          else storage
        let ops : List StorageOp :=
          if cfg.shimDisconnect && storage.isSome then [.set (connectedKey cfg)]
          else []
        (.ok (), storage2,
         { emits := [.connect accounts chainId]
           listeners := [.removeListener "connect", .on "accountsChanged",
             .on "chainChanged", .on "disconnect"]
           storageOps := ops })

/-- onDisconnect handler from the source; err is the optional provider
error carried by the disconnect event.  On the MetaMask code 1013 with a
provider still reporting accounts the handler waits for reconnection and
does nothing.  It performs no storage operation whatsoever. -/
def onDisconnect (env : ConnEnv) (storage : Option Storage)
    (getAddr : String → String) (err : Option RpcErr) :
    Except ConnError Unit × Option Storage × Effects :=
  let is1013 :=
    match err with
    | some e => e.code == 1013
    | none => false
  let proceed : Except ConnError Unit × Option Storage × Effects :=
    (.ok (), storage,
     { emits := [.disconnect]
       listeners :=
         if env.providerPresent then
           [.removeListener "accountsChanged", .removeListener "chainChanged",
            .removeListener "disconnect", .on "connect"]
         else [] })
  if is1013 && env.providerPresent then
    match env.ethAccounts with
    | .error e => (.error (.passthrough e), storage, noEffects)
    | .ok raw =>
      if !(raw.map getAddr).isEmpty then (.ok (), storage, noEffects)
      else proceed
  else proceed

/-- onAccountsChanged handler from the source: empty accounts trigger the
disconnect path; otherwise, when the application event bus still has a
connect listener armed, the connect path runs with the freshly queried
chain id; otherwise a plain change event is emitted.  connectListenerCount
models listenerCount of the emitter for the connect event. -/
def onAccountsChanged (cfg : ConnectorCfg) (env : ConnEnv)
    (storage : Option Storage) (getAddr : String → String)
    (connectListenerCount : Nat) (accounts : List String) :
    Except ConnError Unit × Option Storage × Effects :=
  if accounts.isEmpty then onDisconnect env storage getAddr none
  else if connectListenerCount != 0 then
    match env.chainIdRes with
    | .error e => (.error (.passthrough e), storage, noEffects)
    | .ok chainId => onConnect cfg env storage getAddr chainId
  else
    (.ok (), storage, { emits := [.change (some (accounts.map getAddr)) none] })

/-- Listeners that appear in the async-injection detector of isAuthorized:
the named handleEthereum callback and the anonymous once-wrapper actually
passed to addEventListener. -/
inductive WinListener where
  | handleEthereum
  | onceWrapper
  deriving DecidableEq

structure WinListenerEntry where
  eventName : String
  listener : WinListener
  once : Bool
  deriving DecidableEq

abbrev WinRegistry := List WinListenerEntry

def addEventListener (r : WinRegistry) (evt : String) (l : WinListener)
    (once : Bool) : WinRegistry :=
  r ++ [{ eventName := evt, listener := l, once := once }]

/-- DOM removeEventListener: removes the matching registered listener and
is a no-op when the given callback was never registered for the event. -/
def removeEventListener (r : WinRegistry) (evt : String) (l : WinListener) :
    WinRegistry :=
  r.eraseP (fun entry => entry.eventName == evt && entry.listener == l)

inductive RaceWinner where
  | injectionEvent
  | timerFires
  deriving DecidableEq

/-- Window listener registry after the async-injection race of isAuthorized
completes, starting from registry r0.  The race registers the anonymous
once-wrapper for ethereum#initialized; when the injection event fires
first, the once semantics remove that wrapper and its body runs
handleEthereum, which calls removeEventListener with handleEthereum itself;
when the timer fires first, only handleEthereum runs. -/
def asyncInjectRegistryAfter (r0 : WinRegistry) (winner : RaceWinner) :
    WinRegistry :=
  let r1 := addEventListener r0 "ethereum#initialized" .onceWrapper true
  match winner with
  | .injectionEvent =>
    let r2 := removeEventListener r1 "ethereum#initialized" .onceWrapper
    removeEventListener r2 "ethereum#initialized" .handleEthereum
  | .timerFires =>
    removeEventListener r1 "ethereum#initialized" .handleEthereum

theorem lookup_filter_bne (kvs : List (String × Bool)) (k : String) :
    (kvs.filter (fun kv => kv.1 != k)).lookup k = none := by
  induction kvs with
  | nil => rfl
  | cons head tail ih =>
    by_cases h : head.1 = k
    · simpa [List.filter_cons, h] using ih
    · have hk : (k == head.1) = false := by
        simp [Ne.symm h]
      simp [List.filter_cons, h, List.lookup, hk, ih]

theorem storageGetItem_removeItem (storage : Option Storage) (k : String) :
    storageGetItem (storageRemoveItem storage k) k = false := by
  cases storage with
  | none => rfl
  | some kvs => simp [storageRemoveItem, storageGetItem, lookup_filter_bne]

/-- C9 evaluated on both race outcomes, starting from an empty registry:
when the injection event wins, the registry is clean again, but when the
timer wins, the once-wrapper stays registered, because removeEventListener
is called with handleEthereum, which was never the registered callback;
repeated calls therefore accumulate leftover handlers, against the claim. -/
theorem c9_timeout_leaks_once_wrapper :
    asyncInjectRegistryAfter [] .injectionEvent = [] ∧
    asyncInjectRegistryAfter [] .timerFires =
      [{ eventName := "ethereum#initialized", listener := .onceWrapper,
         once := true }] :=
  ⟨rfl, rfl⟩

/-- C10: when the provider-originated connect handler runs while the
provider reports an empty account list, onConnect completes without
emitting an event, without touching any provider listener and without
writing the shim entry: the result is ok, storage is unchanged and no
effect is performed. -/
theorem c10_onconnect_empty_accounts_noop
    (cfg : ConnectorCfg) (env : ConnEnv) (storage : Option Storage)
    (getAddr : String → String) (chainId : Nat)
    (hp : env.providerPresent = true)
    (hacc : env.ethAccounts = .ok []) :
    onConnect cfg env storage getAddr chainId = (.ok (), storage, noEffects) := by
  simp [onConnect, hp, hacc]

theorem c10_onconnect_empty_accounts_noop_witness :
    onConnect {} { providerPresent := true, ethAccounts := .ok [] }
      (some []) (fun s => s) 1 = (.ok (), some [], noEffects) :=
  c10_onconnect_empty_accounts_noop {}
    { providerPresent := true, ethAccounts := .ok [] } (some [])
    (fun s => s) 1 rfl rfl

/-- C5: isAuthorized is total (every internal failure is caught and
degrades to false) and returns false whenever the shim reads as
disconnected, whenever the provider reports no accounts, whenever the
account query fails, and whenever no provider is found and the
async-injection re-check does not produce one; moreover after a completed
disconnect with shimDisconnect enabled, a subsequent isAuthorized returns
false whatever accounts the provider would report. -/
theorem c5_isauthorized_false_conditions
    (cfg : ConnectorCfg) (env : ConnEnv) (storage : Option Storage)
    (getAddr : String → String) :
    (cfg.shimDisconnect = true →
      storageGetItem storage (connectedKey cfg) = false →
      isAuthorized cfg env storage getAddr = false) ∧
    (env.providerPresent = true → env.ethAccounts = .ok [] →
      isAuthorized cfg env storage getAddr = false) ∧
    (∀ e, env.providerPresent = true → env.ethAccounts = .error e →
      isAuthorized cfg env storage getAddr = false) ∧
    (env.providerPresent = false → env.asyncRecheckFindsProvider = false →
      isAuthorized cfg env storage getAddr = false) ∧
    (∀ storage2 fx env2, cfg.shimDisconnect = true →
      disconnect cfg true storage = (.ok (), storage2, fx) →
      isAuthorized cfg env2 storage2 getAddr = false) := by
  refine ⟨?_, ?_, ?_, ?_, ?_⟩
  · intro hshim hkey
    simp [isAuthorized, hshim, hkey]
  · intro hp hacc
    simp [isAuthorized, hp, hacc]
  · intro e hp hacc
    simp [isAuthorized, hp, hacc]
  · intro hp hrec
    simp [isAuthorized, hp, hrec]
  · intro storage2 fx env2 hshim hdis
    simp only [disconnect, hshim, Bool.not_true, if_true, if_false,
      Bool.false_eq_true, ite_true, ite_false] at hdis
    have hst : storage2 = storageRemoveItem storage (connectedKey cfg) := by
      cases hdis
      rfl
    subst hst
    simp [isAuthorized, hshim, storageGetItem_removeItem]

def c5Storage : Option Storage := some [("injected.connected", true)]

def c5Env : ConnEnv := { providerPresent := true, ethAccounts := .ok ["0xA"] }

theorem c5_isauthorized_false_conditions_witness :
    isAuthorized {} c5Env ((disconnect {} true c5Storage).2.1)
      (fun s => s) = false :=
  (c5_isauthorized_false_conditions {} c5Env c5Storage (fun s => s)).2.2.2.2
    ((disconnect {} true c5Storage).2.1) ((disconnect {} true c5Storage).2.2)
    c5Env rfl rfl

/-- C6: with shimDisconnect enabled, the shim entry is written only by a
successfully completing connect or by the reconnection path of onConnect
(also when that path is reached through onAccountsChanged), it is removed
only by an explicit disconnect, and the handler for provider-originated
disconnect events performs no storage operation at all. -/
theorem c6_shim_write_discipline (cfg : ConnectorCfg)
    (hshim : cfg.shimDisconnect = true) :
    (∀ chains getAddr env storage chainId,
      (connect cfg chains getAddr env storage chainId).2.2.storageOps =
        match (connect cfg chains getAddr env storage chainId).1 with
        | .ok _ =>
          if storage.isSome then [StorageOp.set (connectedKey cfg)] else []
        | .error _ => []) ∧
    (∀ providerPresent storage,
      (disconnect cfg providerPresent storage).2.2.storageOps =
        if providerPresent && storage.isSome then
          [StorageOp.remove (connectedKey cfg)]
        else []) ∧
    (∀ env storage getAddr chainId,
      (onConnect cfg env storage getAddr chainId).2.2.storageOps =
        match env.providerPresent, env.ethAccounts with
        | true, .ok raw =>
          if !raw.isEmpty && storage.isSome then
            [StorageOp.set (connectedKey cfg)]
          else []
        | _, _ => []) ∧
    (∀ env storage getAddr err,
      (onDisconnect env storage getAddr err).2.2.storageOps = []) ∧
    (∀ env storage getAddr lc accounts op,
      op ∈ (onAccountsChanged cfg env storage getAddr lc
        accounts).2.2.storageOps →
      op = StorageOp.set (connectedKey cfg)) := by
  have honD : ∀ (env : ConnEnv) (storage : Option Storage)
      (getAddr : String → String) (err : Option RpcErr),
      (onDisconnect env storage getAddr err).2.2.storageOps = [] := by
    intro env storage getAddr err
    simp only [onDisconnect, noEffects]
    split
    · split
      · rfl
      · split <;> rfl
    · rfl
  have honC : ∀ (env : ConnEnv) (storage : Option Storage)
      (getAddr : String → String) (chainId : Nat),
      (onConnect cfg env storage getAddr chainId).2.2.storageOps =
        match env.providerPresent, env.ethAccounts with
        | true, .ok raw =>
          if !raw.isEmpty && storage.isSome then
            [StorageOp.set (connectedKey cfg)]
          else []
        | _, _ => [] := by
    intro env storage getAddr chainId
    cases hp : env.providerPresent with
    | false => simp [onConnect, hp, noEffects]
    | true =>
      cases hacc : env.ethAccounts with
      | error e => simp [onConnect, hp, hacc, noEffects]
      | ok raw =>
        cases raw with
        | nil => simp [onConnect, hp, hacc, noEffects]
        | cons a l => simp [onConnect, hp, hacc, hshim]
  refine ⟨?_, ?_, ?_, honD, ?_⟩
  · intro chains getAddr env storage chainId
    cases hp : env.providerPresent with
    | false => simp [connect, hp, noEffects]
    | true =>
      cases hph : connectAccountsPhase cfg env storage getAddr with
      | error c0 => simp [connect, hp, hph, noEffects]
      | ok accounts =>
        cases hci : env.chainIdRes with
        | error e => simp [connect, hp, hph, hci]
        | ok cur => simp [connect, hp, hph, hci, hshim]
  · intro providerPresent storage
    cases providerPresent with
    | false => simp [disconnect, noEffects]
    | true => simp [disconnect, hshim]
  · exact honC
  · intro env storage getAddr lc accounts op hmem
    by_cases he : accounts.isEmpty
    · simp only [onAccountsChanged, he, if_true] at hmem
      rw [honD] at hmem
      cases hmem
    · simp only [onAccountsChanged, he, if_false, Bool.false_eq_true,
        ite_false] at hmem
      by_cases hlc : lc = 0
      · simp [hlc] at hmem
      · have hlcb : (lc != 0) = true := by simpa using hlc
        simp only [hlcb, if_true] at hmem
        cases hci : env.chainIdRes with
        | error e => simp [hci, noEffects] at hmem
        | ok cid =>
          simp only [hci] at hmem
          rw [honC] at hmem
          cases hp : env.providerPresent with
          | false => simp [hp] at hmem
          | true =>
            cases hacc : env.ethAccounts with
            | error e => simp [hp, hacc] at hmem
            | ok raw =>
              simp only [hp, hacc] at hmem
              split at hmem
              · simpa using hmem
              · cases hmem

theorem c6_shim_write_discipline_witness :
    (onDisconnect { providerPresent := true } (some []) (fun s => s)
      none).2.2.storageOps = [] ∧
    (disconnect {} true (some [])).2.2.storageOps =
      [StorageOp.remove "injected.connected"] := by
  constructor
  · exact (c6_shim_write_discipline {} rfl).2.2.2.1
      { providerPresent := true } (some []) (fun s => s) none
  · have h := (c6_shim_write_discipline {} rfl).2.1 true (some [])
    rw [h]
    rfl

/-- C7: when a requested chain id differs from the current chain of the
provider and the nested chain-switch fails for any reason, connect still
succeeds and returns the pre-switch current chain id. -/
theorem c7_connect_survives_switch_failure
    (cfg : ConnectorCfg) (chains : List Chain) (getAddr : String → String)
    (env : ConnEnv) (storage : Option Storage) (cid currentChainId : Nat)
    (accounts : List String)
    (hp : env.providerPresent = true)
    (hacc : connectAccountsPhase cfg env storage getAddr = .ok accounts)
    (hcur : env.chainIdRes = .ok currentChainId)
    (h0 : cid ≠ 0) (hne : currentChainId ≠ cid)
    (hsw : ∃ c, (switchChain chains true env.switchEnv cid).1 = .error c) :
    (connect cfg chains getAddr env storage (some cid)).1 =
      .ok { accounts := accounts, chainId := currentChainId } := by
  obtain ⟨c, hc⟩ := hsw
  have hcond : (cid != 0 && currentChainId != cid) = true := by
    simp [h0, hne]
  rcases hval : switchChain chains true env.switchEnv cid with ⟨res, reqs⟩
  rw [hval] at hc
  simp only at hc
  subst hc
  simp [connect, hp, hacc, hcur, hcond, hval]

def c7Env : ConnEnv :=
  { providerPresent := true, requestAccounts := .ok ["0xA"],
    chainIdRes := .ok 1 }

theorem c7_connect_survives_switch_failure_witness :
    (connect {} [] (fun s => s) c7Env none (some 5)).1 =
      .ok { accounts := ["0xA"], chainId := 1 } :=
  c7_connect_survives_switch_failure {} [] (fun s => s) c7Env none 5 1
    ["0xA"] rfl rfl rfl (by decide) (by decide)
    ⟨.switchChainErr .chainNotConfigured, rfl⟩

theorem mapRpc_eq_userRejected (e : RpcErr) (h : mapRpc e = .userRejected) :
    e.code = 4001 := by
  unfold mapRpc at h
  by_cases h1 : (e.code == 4001) = true
  · exact eq_of_beq h1
  · simp only [h1, if_false, Bool.false_eq_true, ite_false] at h
    by_cases h2 : (e.code == -32002) = true <;> simp [h2] at h

theorem mapRpc_eq_resourceUnavailable (e e2 : RpcErr)
    (h : mapRpc e = .resourceUnavailable e2) : e2 = e ∧ e.code = -32002 := by
  unfold mapRpc at h
  by_cases h1 : (e.code == 4001) = true
  · simp [h1] at h
  · simp only [h1, if_false, Bool.false_eq_true, ite_false] at h
    by_cases h2 : (e.code == -32002) = true
    · simp only [h2, if_true] at h
      exact ⟨(ConnError.resourceUnavailable.injEq _ _ ▸ h).symm ▸ rfl,
        eq_of_beq h2⟩
    · simp [h2] at h

theorem mapRpc_eq_passthrough (e e2 : RpcErr)
    (h : mapRpc e = .passthrough e2) :
    e2 = e ∧ e.code ≠ 4001 ∧ e.code ≠ -32002 := by
  unfold mapRpc at h
  by_cases h1 : (e.code == 4001) = true
  · simp [h1] at h
  · simp only [h1, if_false, Bool.false_eq_true, ite_false] at h
    by_cases h2 : (e.code == -32002) = true
    · simp [h2] at h
    · simp only [h2, if_false, Bool.false_eq_true, ite_false] at h
      refine ⟨?_, ?_, ?_⟩
      · exact (ConnError.passthrough.injEq _ _ ▸ h).symm
      · intro hc; exact h1 (by simp [hc])
      · intro hc; exact h2 (by simp [hc])

theorem mapRpc_ne_providerNotFound (e : RpcErr) :
    mapRpc e ≠ .providerNotFound := by
  unfold mapRpc
  by_cases h1 : (e.code == 4001) = true
  · simp [h1]
  · simp only [h1, if_false, Bool.false_eq_true, ite_false]
    by_cases h2 : (e.code == -32002) = true <;> simp [h2]

theorem selectAccountsStep_error_cases (cfg : ConnectorCfg) (env : ConnEnv)
    (storage : Option Storage) (getAddr : String → String) (c : ConnError)
    (h : selectAccountsStep cfg env storage getAddr = .error c) :
    (c = .userRejected ∧ ∃ e, env.permissions = .error e ∧ e.code = 4001) ∨
    (∃ e, c = .resourceUnavailable e ∧ env.permissions = .error e ∧
      e.code = -32002) := by
  simp only [selectAccountsStep] at h
  by_cases hsel : (cfg.canSelectAccount &&
      (cfg.shimDisconnect && !storageGetItem storage (connectedKey cfg))) = true
  · simp only [hsel, if_true] at h
    cases hacc : env.ethAccounts with
    | error e0 => simp [hacc] at h
    | ok raw =>
      simp only [hacc] at h
      by_cases hre : (raw.map getAddr).isEmpty = true
      · simp [hre] at h
      · simp only [hre, if_false, Bool.false_eq_true, ite_false] at h
        cases hperm : env.permissions with
        | ok value => simp [hperm] at h
        | error e =>
          simp only [hperm] at h
          by_cases h1 : (e.code == 4001) = true
          · simp only [h1, if_true] at h
            refine Or.inl ⟨?_, e, rfl, eq_of_beq h1⟩
            exact (Except.error.injEq _ _ ▸ h).symm
          · simp only [h1, if_false, Bool.false_eq_true, ite_false] at h
            by_cases h2 : (e.code == -32002) = true
            · simp only [h2, if_true] at h
              refine Or.inr ⟨e, ?_, rfl, eq_of_beq h2⟩
              exact (Except.error.injEq _ _ ▸ h).symm
            · simp [h2] at h
  · simp [hsel] at h

theorem connectAccountsPhase_error_cases (cfg : ConnectorCfg) (env : ConnEnv)
    (storage : Option Storage) (getAddr : String → String) (c : ConnError)
    (h : connectAccountsPhase cfg env storage getAddr = .error c) :
    (c = .userRejected ∧ ∃ e, env.permissions = .error e ∧ e.code = 4001) ∨
    (∃ e, c = .resourceUnavailable e ∧ env.permissions = .error e ∧
      e.code = -32002) ∨
    (∃ e, c = mapRpc e ∧ env.requestAccounts = .error e) := by
  unfold connectAccountsPhase at h
  cases hsel : selectAccountsStep cfg env storage getAddr with
  | error c0 =>
    rw [hsel] at h
    simp only [Except.error.injEq] at h
    subst h
    rcases selectAccountsStep_error_cases cfg env storage getAddr c0 hsel with
      h1 | h2
    · exact Or.inl h1
    · exact Or.inr (Or.inl h2)
  | ok acctsOpt =>
    rw [hsel] at h
    simp only at h
    by_cases he : (acctsOpt.getD []).isEmpty = true
    · simp only [he, if_true] at h
      cases hreq : env.requestAccounts with
      | error e =>
        rw [hreq] at h
        simp only [Except.error.injEq] at h
        exact Or.inr (Or.inr ⟨e, h.symm, rfl⟩)
      | ok raw => rw [hreq] at h; simp at h
    · simp [he] at h

theorem connect_error_characterization (cfg : ConnectorCfg)
    (chains : List Chain) (getAddr : String → String) (env : ConnEnv)
    (storage : Option Storage) (chainId : Option Nat) (c : ConnError)
    (h : (connect cfg chains getAddr env storage chainId).1 = .error c) :
    ((c = .providerNotFound ∧ env.providerPresent = false) ∨
     connectAccountsPhase cfg env storage getAddr = .error c ∨
     (∃ e, env.chainIdRes = .error e ∧ c = mapRpc e)) ∧
    (connect cfg chains getAddr env storage chainId).2.1 = storage ∧
    (connect cfg chains getAddr env storage chainId).2.2.storageOps = [] := by
  cases hp : env.providerPresent with
  | false =>
    simp only [connect, hp, Bool.not_false, if_true, noEffects] at h ⊢
    simp only [Except.error.injEq] at h
    exact ⟨Or.inl ⟨h.symm, trivial⟩, trivial, trivial⟩
  | true =>
    cases hph : connectAccountsPhase cfg env storage getAddr with
    | error c0 =>
      simp only [connect, hp, Bool.not_true, if_false, Bool.false_eq_true,
        ite_false, hph, noEffects] at h ⊢
      simp only [Except.error.injEq] at h
      subst h
      exact ⟨Or.inr (Or.inl rfl), trivial, trivial⟩
    | ok accounts =>
      cases hci : env.chainIdRes with
      | error e =>
        simp only [connect, hp, Bool.not_true, if_false, Bool.false_eq_true,
          ite_false, hph, hci] at h ⊢
        simp only [Except.error.injEq] at h
        exact ⟨Or.inr (Or.inr ⟨e, rfl, h.symm⟩), trivial, trivial⟩
      | ok cur =>
        simp [connect, hp, hph, hci] at h

/-- C2: every failing connect surfaces either a provider-not-found
condition (only when no provider resolves), a user-rejection error (only
when some consulted request failed with code 4001), a resource-unavailable
error (only wrapping an error whose code is -32002), or the untouched
provider error, whose code is then neither 4001 nor -32002; and every
failing connect leaves storage exactly as it was, performing no storage
write. -/
theorem c2_connect_error_mapping (cfg : ConnectorCfg) (chains : List Chain)
    (getAddr : String → String) (env : ConnEnv) (storage : Option Storage)
    (chainId : Option Nat) :
    (∀ e, (connect cfg chains getAddr env storage chainId).1 =
        .error (.passthrough e) → e.code ≠ 4001 ∧ e.code ≠ -32002) ∧
    (∀ e, (connect cfg chains getAddr env storage chainId).1 =
        .error (.resourceUnavailable e) → e.code = -32002) ∧
    ((connect cfg chains getAddr env storage chainId).1 =
        .error .userRejected →
      (∃ e, env.permissions = .error e ∧ e.code = 4001) ∨
      (∃ e, env.requestAccounts = .error e ∧ e.code = 4001) ∨
      (∃ e, env.chainIdRes = .error e ∧ e.code = 4001)) ∧
    ((connect cfg chains getAddr env storage chainId).1 =
        .error .providerNotFound → env.providerPresent = false) ∧
    (∀ c, (connect cfg chains getAddr env storage chainId).1 = .error c →
      (connect cfg chains getAddr env storage chainId).2.1 = storage ∧
      (connect cfg chains getAddr env storage chainId).2.2.storageOps = []) := by
  refine ⟨?_, ?_, ?_, ?_, ?_⟩
  · intro e h
    rcases (connect_error_characterization cfg chains getAddr env storage
      chainId _ h).1 with ⟨hc, _⟩ | hph | ⟨e0, _, hc⟩
    · cases hc
    · rcases connectAccountsPhase_error_cases cfg env storage getAddr _ hph
        with ⟨hc, _⟩ | ⟨e0, hc, _⟩ | ⟨e0, hc, _⟩
      · cases hc
      · cases hc
      · obtain ⟨he, h1, h2⟩ := mapRpc_eq_passthrough e0 e hc.symm
        rw [he]
        exact ⟨h1, h2⟩
    · obtain ⟨he, h1, h2⟩ := mapRpc_eq_passthrough e0 e hc.symm
      rw [he]
      exact ⟨h1, h2⟩
  · intro e h
    rcases (connect_error_characterization cfg chains getAddr env storage
      chainId _ h).1 with ⟨hc, _⟩ | hph | ⟨e0, _, hc⟩
    · cases hc
    · rcases connectAccountsPhase_error_cases cfg env storage getAddr _ hph
        with ⟨hc, _⟩ | ⟨e0, hc, _, hcode⟩ | ⟨e0, hc, _⟩
      · cases hc
      · have he : e = e0 := by injection hc
        rw [he]
        exact hcode
      · obtain ⟨he, hcode⟩ := mapRpc_eq_resourceUnavailable e0 e hc.symm
        rw [he]
        exact hcode
    · obtain ⟨he, hcode⟩ := mapRpc_eq_resourceUnavailable e0 e hc.symm
      rw [he]
      exact hcode
  · intro h
    rcases (connect_error_characterization cfg chains getAddr env storage
      chainId _ h).1 with ⟨hc, _⟩ | hph | ⟨e0, hci, hc⟩
    · cases hc
    · rcases connectAccountsPhase_error_cases cfg env storage getAddr _ hph
        with ⟨_, e0, hperm, hcode⟩ | ⟨e0, hc, _⟩ | ⟨e0, hc, hreq⟩
      · exact Or.inl ⟨e0, hperm, hcode⟩
      · cases hc
      · exact Or.inr (Or.inl ⟨e0, hreq, mapRpc_eq_userRejected e0 hc.symm⟩)
    · exact Or.inr (Or.inr ⟨e0, hci, mapRpc_eq_userRejected e0 hc.symm⟩)
  · intro h
    rcases (connect_error_characterization cfg chains getAddr env storage
      chainId _ h).1 with ⟨_, hp⟩ | hph | ⟨e0, _, hc⟩
    · exact hp
    · rcases connectAccountsPhase_error_cases cfg env storage getAddr _ hph
        with ⟨hc, _⟩ | ⟨e0, hc, _⟩ | ⟨e0, hc, _⟩
      · cases hc
      · cases hc
      · exact absurd hc.symm (mapRpc_ne_providerNotFound e0)
    · exact absurd hc.symm (mapRpc_ne_providerNotFound e0)
  · intro c h
    exact (connect_error_characterization cfg chains getAddr env storage
      chainId c h).2

def c2Env : ConnEnv :=
  { providerPresent := true, requestAccounts := .error { code := 4001 } }

theorem c2_connect_error_mapping_witness :
    (∃ e, c2Env.permissions = .error e ∧ e.code = 4001) ∨
    (∃ e, c2Env.requestAccounts = .error e ∧ e.code = 4001) ∨
    (∃ e, c2Env.chainIdRes = .error e ∧ e.code = 4001) :=
  (c2_connect_error_mapping {} [] (fun s => s) c2Env none none).2.2.1 rfl

end Injected
